import Mathlib

/-!
Verification of the SprintCopilot tracker core (TrackerService and
S3UploadService) against its natural-language specification.

The TypeScript source is shallowly embedded: JavaScript strings are modelled
as lists of characters (one list element per UTF-16 code unit; all characters
used in this development lie in the Basic Multilingual Plane, where one code
unit is one code point), so that the JavaScript distinction between
String.prototype.slice (which counts code units) and Buffer.byteLength with
utf8 encoding (which counts UTF-8 bytes) is preserved.  Stateful code is
modelled by explicit state passing; side effects relevant to the claims are
recorded in explicit effect lists.
-/

namespace SprintCopilot

/-! ## JavaScript string model -/

/-- A JavaScript string, as a list of characters. -/
abbrev JStr := List Char

/-- Buffer.byteLength(s, utf8): the UTF-8 byte length of a string. -/
def utf8ByteLength (s : JStr) : Nat :=
  (s.map Char.utf8Size).sum

/-- s.slice(0, n): the first n characters of a string (JavaScript slices by
code units; on BMP strings this is List.take). -/
def jsSlice (s : JStr) (n : Nat) : JStr :=
  s.take n

/-- JavaScript truthiness of an optional string: undefined and the empty
string are falsy. -/
def jsTruthyOptStr : Option String → Bool
  | none => false
  | some s => !(s == "")

/-- The JavaScript expression a or-else d (written with the or operator)
where a is an optional string and d a string: returns a when a is truthy,
otherwise d. -/
def jsOrStr (a : Option String) (d : String) : String :=
  match a with
  | none => d
  | some s => if s == "" then d else s

/-- The JavaScript or operator on two optional strings (the result may still
be undefined or falsy, as in taskInfo.gitRepoPath or-else env.GIT_REPO_PATH). -/
def jsOrOptStr (a : Option String) (b : Option String) : Option String :=
  if jsTruthyOptStr a then a else b

/-! ## Diff shaping (TrackerService.captureDiffForScreenshot)

Constants from the source:
DIFF_FILE_MAX_BYTES = 2 * 1024 * 1024 and DIFF_METADATA_MAX_CHARS = 10000. -/

def DIFF_FILE_MAX_BYTES : Nat := 2 * 1024 * 1024

def DIFF_METADATA_MAX_CHARS : Nat := 10000

/-- The literal written when a session has no prior snapshot baseline. -/
def noBaselineText : JStr := ("No baseline available.\n").toList

/-- The literal written when the diff between the two refs is blank. -/
def noChangesText : JStr := ("No changes detected.\n").toList

/-- The truncation marker appended when the byte ceiling is exceeded. -/
def truncMarker : JStr := ("\n\n[Diff truncated]\n").toList

/-- Result of the output-shaping part of captureDiffForScreenshot:
the content written to the diff file on disk, the in-metadata preview, and
the diffTruncated flag (false models the field being absent). -/
structure DiffShape where
  fileContent : JStr
  diffContent : JStr
  diffTruncated : Bool
  deriving Repr, DecidableEq

/-- Output shaping of captureDiffForScreenshot (source lines 469 to 489 of
the tracker service): substitute the no-baseline / no-changes literals,
truncate to DIFF_FILE_MAX_BYTES using the character-counting slice when the
UTF-8 byte length exceeds the ceiling (appending the marker), write that
content to disk, and truncate the preview to DIFF_METADATA_MAX_CHARS
characters. -/
def shapeDiff (hadBaseline : Bool) (diffOutput : JStr) : DiffShape :=
  let w0 := if !hadBaseline then noBaselineText
            else if diffOutput.all Char.isWhitespace then noChangesText
            else diffOutput
  let truncated0 := decide (utf8ByteLength w0 > DIFF_FILE_MAX_BYTES)
  let w1 := if truncated0 then jsSlice w0 DIFF_FILE_MAX_BYTES ++ truncMarker else w0
  if w1.length ≤ DIFF_METADATA_MAX_CHARS then
    { fileContent := w1, diffContent := w1, diffTruncated := truncated0 }
  else
    { fileContent := w1, diffContent := jsSlice w1 DIFF_METADATA_MAX_CHARS,
      diffTruncated := true }

/-- Result of one run of captureDiffForScreenshot on the git path: the raw
diff subprocess output used, whether the diff subprocess was invoked, the
shaped outputs, and the updated lastSnapshotRef. -/
structure DiffCaptureOut where
  diffOutput : JStr
  gitDiffInvoked : Bool
  fileContent : JStr
  diffContent : JStr
  diffTruncated : Bool
  newLastSnapshotRef : Option String
  deriving Repr

/-- The diff-capture step of a screenshot tick (source lines 454 to 489):
establish whether a baseline existed, compute the base ref (falling back to
the current ref), short-circuit the diff to empty when the two refs are
equal (never invoking the subprocess), shape the output, and record the
current ref as the new baseline.  The gitDiff argument is the oracle for the
git diff subprocess. -/
def captureDiffModel (lastSnapshotRef : Option String) (currentRef : String)
    (gitDiff : String → String → JStr) : DiffCaptureOut :=
  let hadBaseline := jsTruthyOptStr lastSnapshotRef
  let baseRef := jsOrStr lastSnapshotRef currentRef
  let diffOutput := if baseRef == currentRef then [] else gitDiff baseRef currentRef
  let invoked := !(baseRef == currentRef)
  let shaped := shapeDiff hadBaseline diffOutput
  { diffOutput := diffOutput
    gitDiffInvoked := invoked
    fileContent := shaped.fileContent
    diffContent := shaped.diffContent
    diffTruncated := shaped.diffTruncated
    newLastSnapshotRef := some currentRef }

/-! ## Helper lemmas for the diff-shaping model -/

theorem utf8ByteLength_replicate (n : Nat) (c : Char) :
    utf8ByteLength (List.replicate n c) = n * c.utf8Size := by
  simp [utf8ByteLength, List.map_replicate, List.sum_replicate]

theorem utf8ByteLength_append (a b : JStr) :
    utf8ByteLength (a ++ b) = utf8ByteLength a + utf8ByteLength b := by
  simp [utf8ByteLength]

theorem all_replicate_eq_false (n : Nat) (c : Char) (hc : c.isWhitespace = false)
    (hn : n ≠ 0) : (List.replicate n c).all Char.isWhitespace = false := by
  cases n with
  | zero => exact absurd rfl hn
  | succ m => simp [List.replicate_succ, hc]

theorem shapeDiff_false (d : JStr) :
    shapeDiff false d =
      { fileContent := noBaselineText, diffContent := noBaselineText,
        diffTruncated := false } := rfl

theorem shapeDiff_nonblank_over_bytes (d : JStr)
    (hnb : d.all Char.isWhitespace = false)
    (hgt : utf8ByteLength d > DIFF_FILE_MAX_BYTES)
    (hlen : (jsSlice d DIFF_FILE_MAX_BYTES ++ truncMarker).length > DIFF_METADATA_MAX_CHARS) :
    shapeDiff true d =
      { fileContent := jsSlice d DIFF_FILE_MAX_BYTES ++ truncMarker,
        diffContent := jsSlice (jsSlice d DIFF_FILE_MAX_BYTES ++ truncMarker) DIFF_METADATA_MAX_CHARS,
        diffTruncated := true } := by
  unfold shapeDiff
  simp only [Bool.not_true, Bool.false_eq_true, if_false, hnb, decide_eq_true hgt, if_true]
  rw [if_neg (by omega)]

theorem take_replicate_over :
    jsSlice (List.replicate 1048577 'é') DIFF_FILE_MAX_BYTES = List.replicate 1048577 'é' := by
  show List.take _ _ = _
  rw [List.take_replicate]
  norm_num [DIFF_FILE_MAX_BYTES]

/-- C3 counterexample.  The claim asserts that a diff text whose UTF-8 byte
length exceeds the 2 MiB ceiling is written to disk as exactly the ceiling
length of diff text plus the truncation marker.  The source truncates with
String.prototype.slice, which counts characters, while the ceiling check
counts UTF-8 bytes: a diff of 1048577 two-byte characters has byte length
2097154, exceeding the ceiling, yet the entire 1048577-character diff (still
2097154 bytes, over the ceiling) is written to disk followed by the marker,
so the written diff text does not have the ceiling length. -/
theorem C3_truncation_counterexample :
    utf8ByteLength (List.replicate 1048577 'é') = 2097154 ∧
    DIFF_FILE_MAX_BYTES = 2097152 ∧
    (shapeDiff true (List.replicate 1048577 'é')).diffTruncated = true ∧
    (shapeDiff true (List.replicate 1048577 'é')).fileContent
      = List.replicate 1048577 'é' ++ truncMarker ∧
    (List.replicate 1048577 'é').length = 1048577 ∧
    utf8ByteLength ((shapeDiff true (List.replicate 1048577 'é')).fileContent) = 2097173 := by
  have hb : utf8ByteLength (List.replicate 1048577 'é') = 2097154 := by
    rw [utf8ByteLength_replicate]; decide
  have hnb : (List.replicate 1048577 'é').all Char.isWhitespace = false :=
    all_replicate_eq_false 1048577 'é' (by decide) (by norm_num)
  have hgt : utf8ByteLength (List.replicate 1048577 'é') > DIFF_FILE_MAX_BYTES := by
    rw [hb]; norm_num [DIFF_FILE_MAX_BYTES]
  have hlen1 : (List.replicate 1048577 'é' ++ truncMarker).length = 1048596 := by
    rw [List.length_append, List.length_replicate]; decide
  have hlen : (jsSlice (List.replicate 1048577 'é') DIFF_FILE_MAX_BYTES ++ truncMarker).length
      > DIFF_METADATA_MAX_CHARS := by
    rw [take_replicate_over, hlen1]; norm_num [DIFF_METADATA_MAX_CHARS]
  have hshape := shapeDiff_nonblank_over_bytes (List.replicate 1048577 'é') hnb hgt hlen
  rw [take_replicate_over] at hshape
  refine ⟨hb, rfl, ?_, ?_, ?_, ?_⟩
  · rw [hshape]
  · rw [hshape]
  · exact List.length_replicate ..
  · rw [hshape]
    show utf8ByteLength (List.replicate 1048577 'é' ++ truncMarker) = 2097173
    rw [utf8ByteLength_append, hb]
    decide

/-- C3 amended.  For every non-blank diff text: if its UTF-8 byte length
exceeds the 2 MiB ceiling, the file written to disk is the first
DIFF_FILE_MAX_BYTES characters of the diff (by the character-counting slice,
which is the whole diff when it has fewer characters than the ceiling; it is
exactly the ceiling length only for texts with at least that many
characters, in particular single-byte ones) followed by the truncation
marker, and diffTruncated is true; if it is under both the byte ceiling and
the 10000-character preview ceiling, diffTruncated is false (absent) and the
full text appears unmodified both on disk and in the preview; if it is under
the byte ceiling but over the character ceiling, the full diff is still
written to disk while the preview is truncated to 10000 characters and
diffTruncated is true. -/
theorem C3_truncation_amended (d : JStr) (hnb : d.all Char.isWhitespace = false) :
    (utf8ByteLength d > DIFF_FILE_MAX_BYTES →
      (shapeDiff true d).fileContent = jsSlice d DIFF_FILE_MAX_BYTES ++ truncMarker ∧
      (shapeDiff true d).diffTruncated = true) ∧
    (utf8ByteLength d ≤ DIFF_FILE_MAX_BYTES → d.length ≤ DIFF_METADATA_MAX_CHARS →
      (shapeDiff true d).fileContent = d ∧ (shapeDiff true d).diffContent = d ∧
      (shapeDiff true d).diffTruncated = false) ∧
    (utf8ByteLength d ≤ DIFF_FILE_MAX_BYTES → d.length > DIFF_METADATA_MAX_CHARS →
      (shapeDiff true d).fileContent = d ∧
      (shapeDiff true d).diffContent = jsSlice d DIFF_METADATA_MAX_CHARS ∧
      (shapeDiff true d).diffTruncated = true) := by
  refine ⟨fun h1 => ?_, fun h1 h2 => ?_, fun h1 h2 => ?_⟩
  · unfold shapeDiff
    simp only [Bool.not_true, Bool.false_eq_true, if_false, hnb, decide_eq_true h1, if_true]
    constructor
    · split <;> rfl
    · split <;> rfl
  · unfold shapeDiff
    simp only [Bool.not_true, Bool.false_eq_true, if_false, hnb,
      decide_eq_false (Nat.not_lt.mpr h1)]
    rw [if_pos h2]
    exact ⟨rfl, rfl, rfl⟩
  · unfold shapeDiff
    simp only [Bool.not_true, Bool.false_eq_true, if_false, hnb,
      decide_eq_false (Nat.not_lt.mpr h1)]
    rw [if_neg (by omega)]
    exact ⟨rfl, rfl, rfl⟩

/-- Witness for C3 amended: a small concrete ASCII diff under both ceilings
is written and previewed unmodified with diffTruncated false. -/
theorem C3_truncation_amended_witness :
    (("diff --git a/f b/f").toList.all Char.isWhitespace = false) ∧
    (shapeDiff true ("diff --git a/f b/f").toList).fileContent = ("diff --git a/f b/f").toList ∧
    (shapeDiff true ("diff --git a/f b/f").toList).diffContent = ("diff --git a/f b/f").toList ∧
    (shapeDiff true ("diff --git a/f b/f").toList).diffTruncated = false := by
  have h := C3_truncation_amended (("diff --git a/f b/f").toList) (by decide)
  have h2 := h.2.1 (by decide) (by decide)
  exact ⟨by decide, h2.1, h2.2.1, h2.2.2⟩

/-- C4: for every session with a configured git repository, the first
screenshot capture (no prior snapshot baseline recorded, lastSnapshotRef
none) produces a diff file and preview equal to the literal no-baseline
marker, with diffTruncated false, and never invokes the git diff subprocess,
regardless of the current ref and of what the diff oracle would return. -/
theorem C4_first_capture_no_baseline (currentRef : String)
    (gitDiff : String → String → JStr) :
    (captureDiffModel none currentRef gitDiff).fileContent = noBaselineText ∧
    (captureDiffModel none currentRef gitDiff).diffContent = noBaselineText ∧
    (captureDiffModel none currentRef gitDiff).diffTruncated = false ∧
    (captureDiffModel none currentRef gitDiff).gitDiffInvoked = false := by
  have hb : (jsOrStr none currentRef == currentRef) = true := by simp [jsOrStr]
  unfold captureDiffModel
  simp [jsTruthyOptStr, hb, shapeDiff_false]

/-- C5: when the recorded baseline ref equals the current snapshot ref (no
changes between two consecutive screenshots), the diff step short-circuits
to the empty diff and the git diff subprocess is never invoked, for every
diff oracle. -/
theorem C5_equal_refs_short_circuit (r : String) (gitDiff : String → String → JStr) :
    (captureDiffModel (some r) r gitDiff).diffOutput = [] ∧
    (captureDiffModel (some r) r gitDiff).gitDiffInvoked = false := by
  have hb : (jsOrStr (some r) r == r) = true := by
    show ((if r == "" then r else r) == r) = true
    split <;> simp
  unfold captureDiffModel
  simp [hb]

/-! ## Tracker service state model

The TrackerService class owns four keyed maps (activeTrackers,
screenshotIntervals, inputLoggers, metadataLogIntervals) and the single
process-wide keyboard listener handle.  Maps are modelled as association
lists (JavaScript Map preserves insertion order; set appends when the key is
absent, delete removes the unique entry).  Timer and listener handles are
abstracted to their presence; timestamps are milliseconds as Nat. -/

structure InputEvent where
  timestamp : Nat
  elapsedSinceStart : Nat
  deriving Repr, DecidableEq

structure ScreenshotMeta where
  id : String
  timestamp : Nat
  path : String
  taskId : String
  deriving Repr, DecidableEq

structure TrackerInfo where
  taskId : String
  taskName : String
  startTime : Nat
  screenshotCount : Nat
  screenshots : List ScreenshotMeta
  keyboardEvents : List InputEvent
  mouseEvents : List InputEvent
  metadataLogs : Nat
  running : Bool
  endTime : Option Nat
  duration : Option Nat
  tenantId : String
  projectId : String
  sessionId : String
  gitRepoPath : Option String
  lastSnapshotRef : Option String
  snapshotIntervalMs : Int
  deriving Repr, DecidableEq

/-- The TRACKER_CONFIG constant of the source. -/
structure TrackerConfig where
  SCREENSHOT_INTERVAL : Int
  ENABLE_KEYBOARD_TRACKING : Bool
  ENABLE_MOUSE_TRACKING : Bool
  ENABLE_SCREENSHOTS : Bool
  ENABLE_SCREENSHOT_SOUND : Bool
  LOG_INTERVAL : Int
  METADATA_LOG_INTERVAL : Int
  deriving Repr, DecidableEq

def TRACKER_CONFIG : TrackerConfig :=
  { SCREENSHOT_INTERVAL := 5 * 1000
    ENABLE_KEYBOARD_TRACKING := true
    ENABLE_MOUSE_TRACKING := true
    ENABLE_SCREENSHOTS := true
    ENABLE_SCREENSHOT_SOUND := true
    LOG_INTERVAL := 10000
    METADATA_LOG_INTERVAL := 30000 }

/-- The process environment variables the tracker reads. -/
structure Env where
  TENANT_ID : Option String
  PROJECT_ID : Option String
  GIT_REPO_PATH : Option String
  deriving Repr, DecidableEq

/-- The taskInfo options object passed to startTracking (absent fields are
none; a JavaScript value of a wrong type is out of model). -/
structure TaskInfo where
  name : Option String
  tenantId : Option String
  projectId : Option String
  sessionId : Option String
  gitRepoPath : Option String
  snapshotIntervalMinutes : Option Int
  snapshotIntervalMs : Option Int
  deriving Repr, DecidableEq

/-- TrackerService.resolveSnapshotIntervalMs: minutes times 60000 when
snapshotIntervalMinutes is a number, else snapshotIntervalMs when it is a
number, else the fixed default. -/
def resolveSnapshotIntervalMs (taskInfo : TaskInfo) : Int :=
  match taskInfo.snapshotIntervalMinutes with
  | some m => m * 60 * 1000
  | none =>
    match taskInfo.snapshotIntervalMs with
    | some v => v
    | none => TRACKER_CONFIG.SCREENSHOT_INTERVAL

/-- The JavaScript or operator on numbers (0 is falsy), as used in
trackerInfo.snapshotIntervalMs or-else TRACKER_CONFIG.SCREENSHOT_INTERVAL. -/
def jsOrInt (v d : Int) : Int := if v == 0 then d else v

/-- JavaScript truthiness of a string (the empty string is falsy). -/
def strTruthy (s : String) : Bool := !(s == "")

/-- The trackerInfo object built by startTracking (source lines 170 to 185). -/
def mkTrackerInfo (env : Env) (taskId : String) (now : Nat) (taskInfo : TaskInfo) :
    TrackerInfo :=
  { taskId := taskId
    taskName := jsOrStr taskInfo.name taskId
    startTime := now
    screenshotCount := 0
    screenshots := []
    keyboardEvents := []
    mouseEvents := []
    metadataLogs := 0
    running := true
    endTime := none
    duration := none
    tenantId := jsOrStr taskInfo.tenantId (jsOrStr env.TENANT_ID "default_tenant")
    projectId := jsOrStr taskInfo.projectId (jsOrStr env.PROJECT_ID "default_project")
    sessionId := jsOrStr taskInfo.sessionId (taskId ++ "-" ++ toString now)
    gitRepoPath := jsOrOptStr taskInfo.gitRepoPath env.GIT_REPO_PATH
    lastSnapshotRef := none
    snapshotIntervalMs := resolveSnapshotIntervalMs taskInfo }

/-- The ids-present guard on the screenshot upload path (source line 344). -/
def uploadGuard (info : TrackerInfo) : Bool :=
  strTruthy info.tenantId && strTruthy info.projectId && strTruthy info.sessionId

structure TrackerState where
  activeTrackers : List (String × TrackerInfo)
  screenshotIntervals : List (String × Int)
  inputLoggers : List String
  metadataLogIntervals : List String
  globalKeyboardListener : Bool
  deriving Repr, DecidableEq

inductive StartResult where
  | ok (startTime : Nat) (screenshotInterval : Int)
       (keyboardTracking mouseTracking : Bool)
  | err (msg : String)
  deriving Repr, DecidableEq

/-- TrackerService.startTracking: reject when a tracker is already active
for the task, otherwise register the session, start the screenshot capture
interval at the resolved cadence (falling back to the default when the
resolved value is falsy), start input tracking and metadata logging, and
return the configuration.  The immediate first screenshot capture is an
asynchronous activity and is modelled separately. -/
def startTracking (st : TrackerState) (env : Env) (taskId : String) (now : Nat)
    (taskInfo : TaskInfo) : StartResult × TrackerState :=
  if (List.lookup taskId st.activeTrackers).isSome then
    (.err "Tracker already running for this task", st)
  else
    let info := mkTrackerInfo env taskId now taskInfo
    let st1 := { st with activeTrackers := st.activeTrackers ++ [(taskId, info)] }
    let st2 := if TRACKER_CONFIG.ENABLE_SCREENSHOTS then
        { st1 with screenshotIntervals := st1.screenshotIntervals ++
            [(taskId, jsOrInt info.snapshotIntervalMs TRACKER_CONFIG.SCREENSHOT_INTERVAL)] }
      else st1
    let st3 := if TRACKER_CONFIG.ENABLE_KEYBOARD_TRACKING || TRACKER_CONFIG.ENABLE_MOUSE_TRACKING then
        { st2 with inputLoggers := st2.inputLoggers ++ [taskId] }
      else st2
    let st4 := { st3 with metadataLogIntervals := st3.metadataLogIntervals ++ [taskId] }
    (.ok now (jsOrInt info.snapshotIntervalMs TRACKER_CONFIG.SCREENSHOT_INTERVAL)
       TRACKER_CONFIG.ENABLE_KEYBOARD_TRACKING TRACKER_CONFIG.ENABLE_MOUSE_TRACKING, st4)

structure Summary where
  taskId : String
  taskName : String
  duration : Nat
  durationMinutes : Nat
  screenshotCount : Nat
  screenshotPaths : List String
  keyboardCount : Nat
  mouseCount : Nat
  deriving Repr, DecidableEq

inductive StopResult where
  | ok (summary : Summary)
  | err (msg : String)
  deriving Repr, DecidableEq

/-- Observable side effects of the stop path. -/
inductive Eff where
  | screenshotTimerCleared (taskId : String)
  | inputTrackingStopped (taskId : String)
  | metadataTimerCleared (taskId : String)
  | summaryFileWrite (taskId : String)
  | diffUploadSpawned (taskId : String)
  | keyboardListenerTeardown
  deriving Repr, DecidableEq

/-- Map.delete on an association list (at most one entry per key). -/
def removeA (k : String) : List (String × α) → List (String × α)
  | [] => []
  | (k', v) :: rest => if k == k' then rest else (k', v) :: removeA k rest

/-- TrackerService.stopTracking: failure without side effects when no
session is active for the task; otherwise mark the session stopped, clear
its timers and input tracking, persist the final metadata log, spawn the
final diff upload when a repo path and all correlation ids are truthy,
compute the summary, and remove the session from every registry map. -/
def stopTracking (st : TrackerState) (now : Nat) (taskId : String) :
    StopResult × TrackerState × List Eff :=
  match List.lookup taskId st.activeTrackers with
  | none => (.err "No active tracker for this task", st, [])
  | some info =>
    let dur := now - info.startTime
    let info1 := { info with running := false, endTime := some now, duration := some dur }
    let effs1 := if (List.lookup taskId st.screenshotIntervals).isSome then
        [Eff.screenshotTimerCleared taskId] else []
    let effs2 := if st.inputLoggers.contains taskId then
        [Eff.inputTrackingStopped taskId] else []
    let effs3 := if st.metadataLogIntervals.contains taskId then
        [Eff.metadataTimerCleared taskId] else []
    let effs4 := [Eff.summaryFileWrite taskId]
    let effs5 := if jsTruthyOptStr info1.gitRepoPath && strTruthy info1.tenantId
          && strTruthy info1.projectId && strTruthy info1.sessionId then
        [Eff.diffUploadSpawned taskId] else []
    let summary : Summary :=
      { taskId := info1.taskId
        taskName := info1.taskName
        duration := dur
        durationMinutes := (dur + 30000) / 60000
        screenshotCount := info1.screenshotCount
        screenshotPaths := info1.screenshots.map ScreenshotMeta.path
        keyboardCount := info1.keyboardEvents.length
        mouseCount := info1.mouseEvents.length }
    let st' : TrackerState :=
      { activeTrackers := removeA taskId st.activeTrackers
        screenshotIntervals := removeA taskId st.screenshotIntervals
        inputLoggers := st.inputLoggers.erase taskId
        metadataLogIntervals := st.metadataLogIntervals.erase taskId
        globalKeyboardListener := st.globalKeyboardListener }
    (.ok summary, st', effs1 ++ effs2 ++ effs3 ++ effs4 ++ effs5)

/-- The iteration of stopTracking over a pre-computed key list, as performed
by stopAllTrackers. -/
def stopAllGo (now : Nat) : List String → TrackerState → TrackerState × List Eff
  | [], st => (st, [])
  | k :: ks, st =>
    let r := stopTracking st now k
    let rest := stopAllGo now ks r.2.1
    (rest.1, r.2.2 ++ rest.2)

/-- TrackerService.stopAllTrackers: stop every active session, then tear
down the shared global keyboard listener when it exists. -/
def stopAllTrackers (st : TrackerState) (now : Nat) : TrackerState × List Eff :=
  let r := stopAllGo now (st.activeTrackers.map Prod.fst) st
  if r.1.globalKeyboardListener then
    ({ r.1 with globalKeyboardListener := false }, r.2 ++ [Eff.keyboardListenerTeardown])
  else r

def countSummaryWrites (effs : List Eff) : Nat :=
  effs.countP (fun e => match e with | Eff.summaryFileWrite _ => true | _ => false)

def countTeardowns (effs : List Eff) : Nat :=
  effs.countP (fun e => match e with | Eff.keyboardListenerTeardown => true | _ => false)

/-! ## Helper lemmas for the tracker service model -/

theorem lookup_append_of_none {α : Type} (k : String) (l : List (String × α)) (v : α)
    (h : List.lookup k l = none) : List.lookup k (l ++ [(k, v)]) = some v := by
  induction l with
  | nil => simp [List.lookup]
  | cons p rest ih =>
    obtain ⟨k2, v2⟩ := p
    by_cases hk : (k == k2) = true
    · simp [List.lookup, hk] at h
    · have hk2 : (k == k2) = false := by simpa using hk
      simp only [List.cons_append, List.lookup, hk2] at h ⊢
      exact ih h

theorem jsOrStr_ne_empty (a : Option String) (d : String) (h : d ≠ "") :
    jsOrStr a d ≠ "" := by
  cases a with
  | none => exact h
  | some s =>
    show (if s == "" then d else s) ≠ ""
    by_cases hs : (s == "") = true
    · rw [if_pos hs]; exact h
    · rw [if_neg hs]; simpa using hs

theorem strTruthy_eq_true (s : String) (h : s ≠ "") : strTruthy s = true := by
  simp [strTruthy, h]

theorem sessionId_default_ne_empty (taskId : String) (now : Nat) :
    (taskId ++ "-" ++ toString now) ≠ "" := by
  intro h
  have h2 := congrArg String.length h
  rw [String.length_append, String.length_append] at h2
  have h3 : ("-" : String).length = 1 := rfl
  have h4 : ("" : String).length = 0 := rfl
  omega

theorem stopTracking_found (st : TrackerState) (now : Nat) (k : String) (v : TrackerInfo)
    (rest : List (String × TrackerInfo)) (h : st.activeTrackers = (k, v) :: rest) :
    (stopTracking st now k).2.1.activeTrackers = rest ∧
    (stopTracking st now k).2.1.globalKeyboardListener = st.globalKeyboardListener ∧
    countSummaryWrites (stopTracking st now k).2.2 = 1 ∧
    countTeardowns (stopTracking st now k).2.2 = 0 := by
  have hl : List.lookup k st.activeTrackers = some v := by
    rw [h]; simp [List.lookup]
  unfold stopTracking
  rw [hl]
  refine ⟨?_, rfl, ?_, ?_⟩
  · show removeA k st.activeTrackers = rest
    rw [h]
    simp [removeA]
  · show countSummaryWrites (_ ++ _ ++ _ ++ _ ++ _) = 1
    simp only [countSummaryWrites, List.countP_append]
    split <;> split <;> split <;> split <;> rfl
  · show countTeardowns (_ ++ _ ++ _ ++ _ ++ _) = 0
    simp only [countTeardowns, List.countP_append]
    split <;> split <;> split <;> split <;> rfl

theorem stopAllGo_spec (now : Nat) (l : List (String × TrackerInfo)) :
    ∀ (st : TrackerState), st.activeTrackers = l →
    (stopAllGo now (l.map Prod.fst) st).1.activeTrackers = [] ∧
    (stopAllGo now (l.map Prod.fst) st).1.globalKeyboardListener = st.globalKeyboardListener ∧
    countSummaryWrites (stopAllGo now (l.map Prod.fst) st).2 = l.length ∧
    countTeardowns (stopAllGo now (l.map Prod.fst) st).2 = 0 := by
  induction l with
  | nil =>
    intro st h
    simp [stopAllGo, countSummaryWrites, countTeardowns, h]
  | cons p rest ih =>
    intro st h
    obtain ⟨k, v⟩ := p
    have hf := stopTracking_found st now k v rest h
    have hrec := ih (stopTracking st now k).2.1 hf.1
    simp only [List.map_cons, stopAllGo]
    refine ⟨hrec.1, ?_, ?_, ?_⟩
    · rw [hrec.2.1, hf.2.1]
    · simp only [countSummaryWrites, List.countP_append] at hrec ⊢
      rw [hrec.2.2.1]
      show countSummaryWrites (stopTracking st now k).2.2 + rest.length = rest.length + 1
      rw [hf.2.2.1]
      omega
    · simp only [countTeardowns, List.countP_append] at hrec ⊢
      rw [hrec.2.2.2]
      show countTeardowns (stopTracking st now k).2.2 + 0 = 0
      rw [hf.2.2.2]

theorem stopAllTrackers_no_sessions (st : TrackerState) (now : Nat)
    (h1 : st.activeTrackers = []) (h2 : st.globalKeyboardListener = false) :
    stopAllTrackers st now = (st, []) := by
  have hgo : stopAllGo now (st.activeTrackers.map Prod.fst) st = (st, []) := by
    rw [h1]
    rfl
  unfold stopAllTrackers
  show (if (stopAllGo now (st.activeTrackers.map Prod.fst) st).1.globalKeyboardListener = true
      then _ else _) = _
  rw [hgo, if_neg (by simp [h2])]

/-! ## Concrete states used by the witnesses -/

def env0 : Env := { TENANT_ID := none, PROJECT_ID := none, GIT_REPO_PATH := none }

def taskInfo0 : TaskInfo :=
  { name := none, tenantId := none, projectId := none, sessionId := none,
    gitRepoPath := none, snapshotIntervalMinutes := none, snapshotIntervalMs := none }

def emptyTrackerState : TrackerState :=
  { activeTrackers := [], screenshotIntervals := [], inputLoggers := [],
    metadataLogIntervals := [], globalKeyboardListener := false }

def oneSessionState : TrackerState :=
  (startTracking emptyTrackerState env0 "task-1" 5 taskInfo0).2

def tiZeroMs : TaskInfo := { taskInfo0 with snapshotIntervalMs := some 0 }

def tiTwoMinutes : TaskInfo := { taskInfo0 with snapshotIntervalMinutes := some 2 }

def threeSessionState : TrackerState :=
  let s1 := (startTracking emptyTrackerState env0 "task-1" 1 taskInfo0).2
  let s2 := (startTracking s1 env0 "task-2" 2 taskInfo0).2
  let s3 := (startTracking s2 env0 "task-3" 3 taskInfo0).2
  { s3 with globalKeyboardListener := true }

/-! ## Claim theorems on the tracker service model -/

/-- C2: a second startTracking call for a taskId that already has an active
session returns the failure result and has no side effects at all: the
returned state is the input state, so the first session's object, every
registry map, and the timer registrations are unchanged and no new timers or
observers are started. -/
theorem C2_double_start_rejected (st : TrackerState) (env : Env) (taskId : String)
    (now : Nat) (taskInfo : TaskInfo)
    (h : (List.lookup taskId st.activeTrackers).isSome = true) :
    startTracking st env taskId now taskInfo =
      (.err "Tracker already running for this task", st) := by
  unfold startTracking
  rw [if_pos h]

/-- Witness for C2: starting task-1 twice; the second call fails and leaves
the state exactly as after the first call. -/
theorem C2_double_start_rejected_witness :
    startTracking oneSessionState env0 "task-1" 99 taskInfo0 =
      (.err "Tracker already running for this task", oneSessionState) :=
  C2_double_start_rejected oneSessionState env0 "task-1" 99 taskInfo0 (by decide)

/-- C6 counterexample.  The claim asserts that the recurring capture timer
and the returned config.screenshotInterval always use the resolved interval.
When the options resolve to 0 (snapshotIntervalMs equal to 0, a number), the
falsy-or fallback at the timer and at the returned config silently replaces
the resolved 0 with the 5000 ms default, so neither uses the resolved
value. -/
theorem C6_interval_counterexample :
    resolveSnapshotIntervalMs tiZeroMs = 0 ∧
    (startTracking emptyTrackerState env0 "task-1" 0 tiZeroMs).1 = .ok 0 5000 true true ∧
    List.lookup "task-1"
        (startTracking emptyTrackerState env0 "task-1" 0 tiZeroMs).2.screenshotIntervals
      = some 5000 ∧
    (5000 : Int) ≠ 0 := by
  decide

/-- C6 amended: the effective interval is resolved with the stated priority
(minutes times 60000, else milliseconds, else the 5000 ms default), and
whenever the resolved value is nonzero both the recurring capture timer and
the returned config.screenshotInterval use exactly the resolved value; when
the resolved value is 0 both fall back to the 5000 ms default. -/
theorem C6_interval_amended (env : Env) (taskId : String) (now : Nat) (ti : TaskInfo)
    (st : TrackerState)
    (hfree : (List.lookup taskId st.activeTrackers).isSome = false)
    (hfree2 : List.lookup taskId st.screenshotIntervals = none)
    (hnz : resolveSnapshotIntervalMs ti ≠ 0) :
    (startTracking st env taskId now ti).1
      = .ok now (resolveSnapshotIntervalMs ti) true true ∧
    List.lookup taskId (startTracking st env taskId now ti).2.screenshotIntervals
      = some (resolveSnapshotIntervalMs ti) ∧
    (∀ m, ti.snapshotIntervalMinutes = some m →
      resolveSnapshotIntervalMs ti = m * 60 * 1000) ∧
    (ti.snapshotIntervalMinutes = none →
      ∀ v, ti.snapshotIntervalMs = some v → resolveSnapshotIntervalMs ti = v) ∧
    (ti.snapshotIntervalMinutes = none → ti.snapshotIntervalMs = none →
      resolveSnapshotIntervalMs ti = 5000) := by
  have hor : jsOrInt (resolveSnapshotIntervalMs ti) TRACKER_CONFIG.SCREENSHOT_INTERVAL
      = resolveSnapshotIntervalMs ti := by
    unfold jsOrInt
    rw [if_neg (by simpa using hnz)]
  have hneg : ¬ (List.lookup taskId st.activeTrackers).isSome = true := by
    rw [hfree]
    simp
  refine ⟨?_, ?_, ?_, ?_, ?_⟩
  · unfold startTracking
    rw [if_neg hneg]
    show StartResult.ok now
        (jsOrInt (resolveSnapshotIntervalMs ti) TRACKER_CONFIG.SCREENSHOT_INTERVAL)
        TRACKER_CONFIG.ENABLE_KEYBOARD_TRACKING TRACKER_CONFIG.ENABLE_MOUSE_TRACKING = _
    rw [hor]
    rfl
  · unfold startTracking
    rw [if_neg hneg]
    show List.lookup taskId (st.screenshotIntervals ++
        [(taskId, jsOrInt (resolveSnapshotIntervalMs ti) TRACKER_CONFIG.SCREENSHOT_INTERVAL)])
      = some (resolveSnapshotIntervalMs ti)
    rw [hor]
    exact lookup_append_of_none taskId _ _ hfree2
  · intro m hm
    simp [resolveSnapshotIntervalMs, hm]
  · intro h1 v hv
    simp [resolveSnapshotIntervalMs, h1, hv]
  · intro h1 h2
    simp [resolveSnapshotIntervalMs, h1, h2]
    decide

/-- Witness for C6 amended: a two-minute option resolves to 120000 ms and
both the timer registration and the returned config carry 120000. -/
theorem C6_interval_amended_witness :
    (startTracking emptyTrackerState env0 "task-1" 7 tiTwoMinutes).1
      = .ok 7 (resolveSnapshotIntervalMs tiTwoMinutes) true true ∧
    List.lookup "task-1"
        (startTracking emptyTrackerState env0 "task-1" 7 tiTwoMinutes).2.screenshotIntervals
      = some (resolveSnapshotIntervalMs tiTwoMinutes) ∧
    resolveSnapshotIntervalMs tiTwoMinutes = 120000 := by
  have h := C6_interval_amended env0 "task-1" 7 tiTwoMinutes emptyTrackerState
    (by decide) (by decide) (by decide)
  exact ⟨h.1, h.2.1, by decide⟩

/-- C8: stopTracking on a taskId with no active session returns the
not-running failure result, performs no side effects (empty effect list: no
file written, no timer cancelled) and leaves the whole state, including all
remaining sessions, unchanged. -/
theorem C8_stop_not_running (st : TrackerState) (now : Nat) (taskId : String)
    (h : List.lookup taskId st.activeTrackers = none) :
    stopTracking st now taskId = (.err "No active tracker for this task", st, []) := by
  unfold stopTracking
  rw [h]

/-- Witness for C8: stopping a never-started task on the empty state. -/
theorem C8_stop_not_running_witness :
    stopTracking emptyTrackerState 0 "task-9" =
      (.err "No active tracker for this task", emptyTrackerState, []) :=
  C8_stop_not_running emptyTrackerState 0 "task-9" (by decide)

/-- C9: stopAllTrackers on a state whose keyboard listener handle exists
empties the active-session registry, persists exactly one summary file per
active session, tears the shared keyboard listener down exactly once
(resetting the handle to the uncreated state), and a subsequent
stopAllTrackers call is an idempotent no-op with no effects. -/
theorem C9_stopAll_teardown (st : TrackerState) (now now2 : Nat)
    (hkb : st.globalKeyboardListener = true) :
    (stopAllTrackers st now).1.activeTrackers = [] ∧
    countSummaryWrites (stopAllTrackers st now).2 = st.activeTrackers.length ∧
    countTeardowns (stopAllTrackers st now).2 = 1 ∧
    (stopAllTrackers st now).1.globalKeyboardListener = false ∧
    stopAllTrackers (stopAllTrackers st now).1 now2 = ((stopAllTrackers st now).1, []) := by
  have hgo := stopAllGo_spec now st.activeTrackers st rfl
  have hsel : stopAllTrackers st now =
      ({ (stopAllGo now (st.activeTrackers.map Prod.fst) st).1 with
          globalKeyboardListener := false },
       (stopAllGo now (st.activeTrackers.map Prod.fst) st).2 ++ [Eff.keyboardListenerTeardown]) := by
    unfold stopAllTrackers
    show (if (stopAllGo now (st.activeTrackers.map Prod.fst) st).1.globalKeyboardListener = true
        then _ else _) = _
    rw [if_pos (by rw [hgo.2.1, hkb])]
  have h1 : (stopAllTrackers st now).1.activeTrackers = [] := by
    rw [hsel]
    exact hgo.1
  have h4 : (stopAllTrackers st now).1.globalKeyboardListener = false := by
    rw [hsel]
  refine ⟨h1, ?_, ?_, h4, ?_⟩
  · rw [hsel]
    simp only [countSummaryWrites, List.countP_append] at hgo ⊢
    rw [hgo.2.2.1]
    rfl
  · rw [hsel]
    simp only [countTeardowns, List.countP_append] at hgo ⊢
    rw [hgo.2.2.2]
    rfl
  · exact stopAllTrackers_no_sessions _ now2 h1 h4

/-- Witness for C9: three concurrent sessions with the shared keyboard
listener created; one stopAll empties the registry, writes three summary
files and tears the listener down once, and a second stopAll is a no-op. -/
theorem C9_stopAll_teardown_witness :
    threeSessionState.globalKeyboardListener = true ∧
    threeSessionState.activeTrackers.length = 3 ∧
    (stopAllTrackers threeSessionState 100).1.activeTrackers = [] ∧
    countSummaryWrites (stopAllTrackers threeSessionState 100).2 = 3 ∧
    countTeardowns (stopAllTrackers threeSessionState 100).2 = 1 ∧
    (stopAllTrackers threeSessionState 100).1.globalKeyboardListener = false ∧
    stopAllTrackers (stopAllTrackers threeSessionState 100).1 200
      = ((stopAllTrackers threeSessionState 100).1, []) := by
  have h := C9_stopAll_teardown threeSessionState 100 200 (by decide)
  have hlen : threeSessionState.activeTrackers.length = 3 := by decide
  exact ⟨by decide, hlen, h.1, hlen ▸ h.2.1, h.2.2.1, h.2.2.2.1, h.2.2.2.2⟩

/-- C10: the session created by startTracking always has truthy correlation
ids: tenantId falls back to the TENANT_ID environment value and then to
default_tenant, projectId to PROJECT_ID and then default_project, and
sessionId to taskId dash timestamp; hence the ids-present guard on the
screenshot upload path holds for every created session, even when the caller
supplied no correlation ids, so every captured screenshot triggers an upload
attempt. -/
theorem C10_correlation_ids_populated (env : Env) (taskId : String) (now : Nat)
    (ti : TaskInfo) :
    uploadGuard (mkTrackerInfo env taskId now ti) = true ∧
    (ti.tenantId = none → env.TENANT_ID = none →
      (mkTrackerInfo env taskId now ti).tenantId = "default_tenant") ∧
    (ti.projectId = none → env.PROJECT_ID = none →
      (mkTrackerInfo env taskId now ti).projectId = "default_project") ∧
    (ti.sessionId = none →
      (mkTrackerInfo env taskId now ti).sessionId = taskId ++ "-" ++ toString now) := by
  refine ⟨?_, ?_, ?_, ?_⟩
  · have h1 : (mkTrackerInfo env taskId now ti).tenantId ≠ "" :=
      jsOrStr_ne_empty _ _ (jsOrStr_ne_empty _ _ (by decide))
    have h2 : (mkTrackerInfo env taskId now ti).projectId ≠ "" :=
      jsOrStr_ne_empty _ _ (jsOrStr_ne_empty _ _ (by decide))
    have h3 : (mkTrackerInfo env taskId now ti).sessionId ≠ "" :=
      jsOrStr_ne_empty _ _ (sessionId_default_ne_empty taskId now)
    simp [uploadGuard, strTruthy_eq_true _ h1, strTruthy_eq_true _ h2, strTruthy_eq_true _ h3]
  · intro ha hb
    show jsOrStr ti.tenantId (jsOrStr env.TENANT_ID "default_tenant") = _
    rw [ha, hb]
    rfl
  · intro ha hb
    show jsOrStr ti.projectId (jsOrStr env.PROJECT_ID "default_project") = _
    rw [ha, hb]
    rfl
  · intro ha
    show jsOrStr ti.sessionId (taskId ++ "-" ++ toString now) = _
    rw [ha]
    rfl

/-- Witness for C10: a start with no caller-supplied ids and no environment
values yields the documented defaults and a passing upload guard. -/
theorem C10_correlation_ids_populated_witness :
    uploadGuard (mkTrackerInfo env0 "task-1" 42 taskInfo0) = true ∧
    (mkTrackerInfo env0 "task-1" 42 taskInfo0).tenantId = "default_tenant" ∧
    (mkTrackerInfo env0 "task-1" 42 taskInfo0).projectId = "default_project" ∧
    (mkTrackerInfo env0 "task-1" 42 taskInfo0).sessionId = "task-1-42" := by
  have h := C10_correlation_ids_populated env0 "task-1" 42 taskInfo0
  refine ⟨h.1, h.2.1 rfl rfl, h.2.2.1 rfl rfl, ?_⟩
  rw [h.2.2.2 rfl]
  decide

/-! ## Upload service model (S3UploadService)

The two HTTP legs are modelled by their settlement logic: given the
response status and body (and, for the presign leg, the parsed response when
the body parses), the promise either resolves or rejects with the message
built by the source.  uploadScreenshot awaits both legs inside a try/catch
and always resolves to an UploadResult, converting any rejection into a
success false result carrying the rejection message. -/

structure PresignResponse where
  uploadUrl : String
  fileKey : Option String
  expiresIn : Option Int
  deriving Repr, DecidableEq

structure UploadResult where
  success : Bool
  fileKey : Option String
  error : Option String
  deriving Repr, DecidableEq

/-- Settlement of getPresignedUrl (source lines 85 to 99 of the upload
service): resolve the parsed body on a 2xx status, otherwise reject with a
message carrying the HTTP status and response body. -/
def presignSettle (status : Nat) (body : String) (parsed : Option PresignResponse) :
    Except String PresignResponse :=
  if 200 ≤ status ∧ status < 300 then
    match parsed with
    | some p => Except.ok p
    | none => Except.error "Failed to parse response"
  else Except.error ("HTTP " ++ toString status ++ ": " ++ body)

/-- Settlement of the uploadToS3 PUT (source lines 163 to 179): on 2xx,
success with the file key from the request id header, falling back to the
last segment of the destination path; otherwise reject with the status and
body. -/
def uploadToS3Settle (status : Nat) (body : String) (headerRequestId : Option String)
    (urlLastSegment : Option String) : Except String UploadResult :=
  if 200 ≤ status ∧ status < 300 then
    Except.ok { success := true, fileKey := jsOrOptStr headerRequestId urlLastSegment,
                error := none }
  else Except.error ("S3 upload failed with status " ++ toString status ++ ": " ++ body)

/-- S3UploadService.uploadScreenshot: request the presigned URL, then PUT
the bytes; any rejection on either leg is caught and returned as a resolved
failure result with the rejection message — the function never throws. -/
def uploadScreenshotModel (presign : Except String PresignResponse)
    (put : PresignResponse → Except String UploadResult) : UploadResult :=
  match presign with
  | .error e => { success := false, fileKey := none, error := some e }
  | .ok pr =>
    match put pr with
    | .error e => { success := false, fileKey := none, error := some e }
    | .ok r => r

/-- File-system and network effects of one uploadScreenshot call: the file
is stat-read and the presign request issued; the PUT is only issued when the
presign leg resolved.  No path of the function deletes a file. -/
inductive UploadEff where
  | statFile
  | presignRequested
  | putRequested
  | fileDeleted
  deriving Repr, DecidableEq

def uploadScreenshotEffects (presign : Except String PresignResponse) : List UploadEff :=
  [UploadEff.statFile, UploadEff.presignRequested] ++
    (match presign with | .error _ => [] | .ok _ => [UploadEff.putRequested])

/-- The session mutation performed by one screenshot capture tick (source
lines 336 to 337): increment the counter and append the record.  The upload
outcome argument reflects that the tick dispatches the upload fire-and-forget
and only logs its result, so the mutation cannot depend on it. -/
def captureTickUpdate (info : TrackerInfo) (m : ScreenshotMeta)
    (_uploadOutcome : UploadResult) : TrackerInfo :=
  { info with screenshotCount := info.screenshotCount + 1,
              screenshots := info.screenshots ++ [m] }

/-- C7: when the presign request settles with a non-2xx status,
uploadScreenshot resolves (never throws) to a failure result whose error
carries the HTTP status and body, no path of the upload deletes the local
screenshot file, and the capture tick's session mutation is independent of
the upload outcome, so the failure cannot affect the capture loop. -/
theorem C7_presign_failure_resolves (status : Nat) (body : String)
    (parsed : Option PresignResponse)
    (put : PresignResponse → Except String UploadResult)
    (info : TrackerInfo) (m : ScreenshotMeta)
    (h : ¬ (200 ≤ status ∧ status < 300)) :
    uploadScreenshotModel (presignSettle status body parsed) put
      = { success := false, fileKey := none,
          error := some ("HTTP " ++ toString status ++ ": " ++ body) } ∧
    UploadEff.fileDeleted ∉ uploadScreenshotEffects (presignSettle status body parsed) ∧
    (∀ r1 r2 : UploadResult, captureTickUpdate info m r1 = captureTickUpdate info m r2) := by
  have hp : presignSettle status body parsed
      = Except.error ("HTTP " ++ toString status ++ ": " ++ body) := by
    unfold presignSettle
    rw [if_neg h]
  refine ⟨?_, ?_, fun r1 r2 => rfl⟩
  · rw [hp]
    rfl
  · rw [hp]
    simp [uploadScreenshotEffects]

def putAlwaysOk : PresignResponse → Except String UploadResult :=
  fun _ => Except.ok { success := true, fileKey := none, error := none }

def infoW : TrackerInfo := mkTrackerInfo env0 "task-1" 1 taskInfo0

def metaW : ScreenshotMeta :=
  { id := "task-task-1-t1", timestamp := 1, path := "shot.png", taskId := "task-1" }

/-- Witness for C7: a presign leg answering HTTP 500 yields a resolved
failure carrying the status and body, with no file deletion and an
unaffected capture tick. -/
theorem C7_presign_failure_resolves_witness :
    uploadScreenshotModel (presignSettle 500 "Internal Server Error" none) putAlwaysOk
      = { success := false, fileKey := none,
          error := some ("HTTP " ++ toString 500 ++ ": " ++ "Internal Server Error") } ∧
    UploadEff.fileDeleted ∉ uploadScreenshotEffects (presignSettle 500 "Internal Server Error" none) ∧
    captureTickUpdate infoW metaW { success := false, fileKey := none, error := some "e" }
      = captureTickUpdate infoW metaW { success := true, fileKey := some "k", error := none } := by
  have h := C7_presign_failure_resolves 500 "Internal Server Error" none putAlwaysOk
    infoW metaW (by decide)
  exact ⟨h.1, h.2.1, h.2.2 _ _⟩

/-! ## Interleaving model for session destruction (claim C1)

One session and the background activities that can write to it, as an
explicit small-step system.  The capture tick (captureScreenshot) performs
its registry lookup at entry and then suspends at its awaits (screenshot
capture, file write, diff capture); upon resume it unconditionally performs
the diff-baseline update and the screenshots append without re-checking the
registry or the running flag.  stopTracking clears the timers, sets running
to false and removes the session from the registry in one synchronous block.
The keyboard listener callback and the mouse poll check the running flag
before appending, as in the source. -/

structure SessObj where
  running : Bool
  screenshotCount : Nat
  screenshots : List Nat
  keyboardEvents : List Nat
  mouseEvents : List Nat
  lastSnapshotRef : Option String
  hasGitRepo : Bool
  deriving Repr, DecidableEq

/-- Program counter of the (single reusable) capture-tick coroutine slot. -/
inductive TickPC where
  | idle
  | suspended
  | finished
  deriving Repr, DecidableEq

structure Sys where
  registered : Bool
  intervalActive : Bool
  sess : SessObj
  tick : TickPC
  pendingId : Nat
  deriving Repr, DecidableEq

/-- Atomic events of the event loop that touch the session. -/
inductive Act where
  | tickLookup (id : Nat)
  | tickResume
  | stop
  | keyEvent (t : Nat)
  | mousePoll (t : Nat) (moved : Bool)
  deriving Repr, DecidableEq

def stepA (s : Sys) : Act → Sys
  | .tickLookup id =>
    match s.tick with
    | .suspended => s
    | _ =>
      if s.registered then { s with tick := .suspended, pendingId := id }
      else { s with tick := .finished }
  | .tickResume =>
    match s.tick with
    | .suspended =>
      let sess1 := if s.sess.hasGitRepo then { s.sess with lastSnapshotRef := some "ref" }
                   else s.sess
      { s with tick := .finished,
               sess := { sess1 with screenshotCount := sess1.screenshotCount + 1,
                                    screenshots := sess1.screenshots ++ [s.pendingId] } }
    | _ => s
  | .stop =>
    if s.registered then
      { s with registered := false, intervalActive := false,
               sess := { s.sess with running := false } }
    else s
  | .keyEvent t =>
    if s.sess.running then
      { s with sess := { s.sess with keyboardEvents := s.sess.keyboardEvents ++ [t] } }
    else s
  | .mousePoll t moved =>
    if s.sess.running && moved then
      { s with sess := { s.sess with mouseEvents := s.sess.mouseEvents ++ [t] } }
    else s

def run (acts : List Act) (s : Sys) : Sys := acts.foldl stepA s

def initSys : Sys :=
  { registered := true, intervalActive := true,
    sess := { running := true, screenshotCount := 0, screenshots := [],
              keyboardEvents := [], mouseEvents := [], lastSnapshotRef := none,
              hasGitRepo := false },
    tick := .idle, pendingId := 0 }

/-- C1 counterexample.  The claim asserts that once a session is deleted
from the active registry no element is ever appended to its collections,
even by a capture tick suspended at an await when stop ran.  Trace: the tick
performs its registry lookup and suspends; stop runs, removing the session;
the tick resumes and appends to screenshots and increments screenshotCount
after the removal, because captureScreenshot never re-checks the registry or
the running flag after its awaits. -/
theorem C1_write_after_destroy_counterexample :
    (run [Act.tickLookup 7, Act.stop] initSys).registered = false ∧
    (run [Act.tickLookup 7, Act.stop] initSys).sess.screenshots = [] ∧
    (run [Act.tickLookup 7, Act.stop] initSys).sess.screenshotCount = 0 ∧
    (run [Act.tickLookup 7, Act.stop, Act.tickResume] initSys).registered = false ∧
    (run [Act.tickLookup 7, Act.stop, Act.tickResume] initSys).sess.screenshots = [7] ∧
    (run [Act.tickLookup 7, Act.stop, Act.tickResume] initSys).sess.screenshotCount = 1 := by
  decide

theorem stepA_frozen (s : Sys) (a : Act)
    (h1 : s.registered = false) (h2 : s.sess.running = false)
    (h3 : s.tick ≠ TickPC.suspended) :
    (stepA s a).sess = s.sess ∧ (stepA s a).registered = false ∧
    (stepA s a).sess.running = false ∧ (stepA s a).tick ≠ TickPC.suspended := by
  cases a with
  | tickLookup id =>
    cases ht : s.tick with
    | suspended => exact absurd ht h3
    | idle => simp [stepA, ht, h1, h2]
    | finished => simp [stepA, ht, h1, h2]
  | tickResume =>
    cases ht : s.tick with
    | suspended => exact absurd ht h3
    | idle => simp [stepA, ht, h1, h2, h3]
    | finished => simp [stepA, ht, h1, h2, h3]
  | stop => simp [stepA, h1, h2, h3]
  | keyEvent t => simp [stepA, h1, h2, h3]
  | mousePoll t moved => simp [stepA, h1, h2, h3]

theorem run_frozen (acts : List Act) :
    ∀ s : Sys, s.registered = false → s.sess.running = false →
      s.tick ≠ TickPC.suspended → (run acts s).sess = s.sess := by
  induction acts with
  | nil =>
    intro s h1 h2 h3
    rfl
  | cons a rest ih =>
    intro s h1 h2 h3
    have hs := stepA_frozen s a h1 h2 h3
    show (run rest (stepA s a)).sess = s.sess
    rw [ih (stepA s a) hs.2.1 hs.2.2.1 hs.2.2.2, hs.1]

/-- C1 amended: when stopTracking runs at a moment with no capture tick
suspended at an await, then after the session is removed no background
activity ever writes to the session object again: a capture tick starting
later fails its registry lookup and never writes, the keyboard and mouse
callbacks see running false and never append, and a second stop is inert.
(The counterexample shows the exception the source actually has: a tick
already suspended at an await when stop runs does write on resume.) -/
theorem C1_no_writes_after_stop_amended (s : Sys) (hreg : s.registered = true)
    (htick : s.tick ≠ TickPC.suspended) (acts : List Act) :
    (run acts (stepA s Act.stop)).sess = (stepA s Act.stop).sess := by
  have h1 : (stepA s Act.stop).registered = false := by
    simp [stepA, hreg]
  have h2 : (stepA s Act.stop).sess.running = false := by
    simp [stepA, hreg]
  have h3 : (stepA s Act.stop).tick ≠ TickPC.suspended := by
    simp [stepA, hreg]
    exact htick
  exact run_frozen acts _ h1 h2 h3

/-- Witness for C1 amended: from the initial state (no in-flight tick), a
stop followed by a tick, a resume, a key event and a mouse poll leaves the
stopped session object untouched. -/
theorem C1_no_writes_after_stop_amended_witness :
    (run [Act.tickLookup 1, Act.tickResume, Act.keyEvent 2, Act.mousePoll 3 true]
        (stepA initSys Act.stop)).sess = (stepA initSys Act.stop).sess :=
  C1_no_writes_after_stop_amended initSys (by decide) (by decide)
    [Act.tickLookup 1, Act.tickResume, Act.keyEvent 2, Act.mousePoll 3 true]

end SprintCopilot
